import Mathlib

/-!
# Sonometre server: snapshot broadcast and historical series

A shallow embedding of `server.js`: the snapshot built and pushed by
`sendSensorData`, the `/historic-data` request handler, the resolution
selector written in its SQL text, and `formatData`.

Conventions of the embedding.

* A JavaScript value that the server only copies (a measurement, a timestamp)
  is a `Val`: either `undefined` or a number.  Numbers are integers here; the
  server never computes with a measurement, it only moves it around.
* A database row is a record with the columns the server reads: `sonde`,
  `timestamp` and the six measurements.
* A JavaScript object keyed by sensor identifier is an association list keyed
  by the integer identifier (the property key of the number `n` is its decimal
  text, which is represented by `n` itself).  Enumeration order is the
  insertion order of the list.
* A value of `req.query` is a text, or the array or object that the query
  parser builds from a repeated or bracketed parameter, or is absent.
* The data access gateway, `JSON.stringify`, `Number` and `new Date` are not
  code of the server.  The gateway and the serializer are parameters; the
  values `new Date(s)` and `xs.map(Number)` are kept symbolic inside `Param`.
-/

namespace Sonometre

/-! ## Values, rows, objects -/

/-- A copied JavaScript value: `undefined` or a number. -/
inductive Val where
  | undefined
  | num (n : Int)
deriving DecidableEq, Repr

/-- The six measurement columns of a reading. -/
structure Measures where
  temperature : Val
  humidite : Val
  co2 : Val
  compose_organic_volatile : Val
  decibels : Val
  particules_fines : Val
deriving DecidableEq, Repr

/-- A row: the sensor identifier, the timestamp and the six measurements. -/
structure Row extends Measures where
  sonde : Int
  timestamp : Val
deriving DecidableEq, Repr

/-- Property read `row[name]` for a property name given as text. -/
def Row.get (row : Row) (name : String) : Val :=
  if name = "sonde" then Val.num row.sonde
  else if name = "timestamp" then row.timestamp
  else if name = "temperature" then row.temperature
  else if name = "humidite" then row.humidite
  else if name = "co2" then row.co2
  else if name = "compose_organic_volatile" then row.compose_organic_volatile
  else if name = "decibels" then row.decibels
  else if name = "particules_fines" then row.particules_fines
  else Val.undefined

/-- An object keyed by sensor identifier. -/
abbrev Obj (α : Type) := List (Int × α)

/-- Property read `o[k]`; `none` is `undefined`. -/
def Obj.get? {α : Type} : Obj α → Int → Option α
  | [], _ => none
  | (k1, v) :: t, k => if k1 = k then some v else Obj.get? t k

/-- Property write `o[k] = v`: replaces the value of an existing key in place,
appends a new key otherwise. -/
def Obj.set {α : Type} : Obj α → Int → α → Obj α
  | [], k, v => [(k, v)]
  | (k1, v1) :: t, k, v => if k1 = k then (k, v) :: t else (k1, v1) :: Obj.set t k v

/-- The keys of an object, in enumeration order. -/
def Obj.keys {α : Type} (o : Obj α) : List Int := o.map Prod.fst

/-! ## Errors and the gateway -/

/-- The exceptions that occur in the modelled code. -/
inductive JSError where
  | database
  | typeError
  | sendFailed
deriving DecidableEq, Repr

/-- A value of `req.query`: a text, or the array or object that the query
parser builds from a repeated parameter (`sondes=1&sondes=2`) or a bracketed
one (`sondes[a]=1`).  Leaves are texts; an array nested in an array converts
to text like the flat array of its leaves. -/
inductive QueryValue where
  | text (s : String)
  | array (items : List String)
  | object (fields : List (String × String))
deriving DecidableEq, Repr

/-- A positional parameter handed to the gateway.  `date raw` stands for
`new Date(raw)`, where `none` is `undefined`, and `numbers raws` for
`raws.map(Number)`. -/
inductive Param where
  | int (n : Int)
  | date (raw : Option QueryValue)
  | numbers (raws : List String)
deriving DecidableEq, Repr

/-- The data access gateway as the server sees it through `fetchData`: the
query text and its parameters give rows, or the call throws. -/
abbrev Gateway := String → List Param → Except JSError (List Row)

/-! ## Live snapshot (`sendSensorData`) -/

/-- Number of sensors. -/
def nbSondes : Nat := 5

/-- Default sensor data when no data is available. -/
def defaultSensorData : Measures :=
  { temperature := Val.num (-1)
    humidite := Val.num (-1)
    co2 := Val.num (-1)
    compose_organic_volatile := Val.num (-1)
    decibels := Val.num (-1)
    particules_fines := Val.num (-1) }

/-- The object `{ sonde: i, ...defaultSensorData }`. -/
def defaultRow (i : Int) : Row :=
  { toMeasures := defaultSensorData, sonde := i, timestamp := Val.undefined }

/-- The array `sensorData` for a sensor count `n`:
`Array.from({ length: n }, (_, i) => results.find(row => row.sonde === i + 1)
|| { sonde: i + 1, ...defaultSensorData })`. -/
def sensorData (n : Nat) (results : List Row) : List Row :=
  (List.range n).map fun (i : Nat) =>
    match results.find? (fun row => row.sonde == (i : Int) + 1) with
    | some row => row
    | none => defaultRow ((i : Int) + 1)

/-- The object that is serialized for a client:
`sensorData.reduce((acc, curr) => ({ ...acc, [curr.sonde]: curr }), {})`. -/
def reduceSnapshot (sensorData : List Row) : Obj Row :=
  sensorData.foldl (fun acc curr => Obj.set acc curr.sonde curr) []

/-- The snapshot of a result list for a sensor count `n`: the object reduced
from `sensorData`. -/
def snapshot (n : Nat) (results : List Row) : Obj Row :=
  reduceSnapshot (sensorData n results)

/-- A subscriber channel: its identity, its `readyState`, and whether a call
of `send` on it throws. -/
structure Channel where
  id : Nat
  readyState : Nat
  sendThrows : Bool
deriving DecidableEq, Repr

/-- The constant `WebSocket.OPEN`. -/
def WebSocket.OPEN : Nat := 1

/-- The loop `wss.clients.forEach(client => { if (client.readyState ===
WebSocket.OPEN) client.send(JSON.stringify(sensorData.reduce(...))) })`.  The
result is the list of completed sends (channel identity and payload) and the
exception that ended the loop, if any. -/
def forEachClient (stringify : Obj Row → String) (sensorData : List Row) :
    List Channel → List (Nat × String) → List (Nat × String) × Option JSError
  | [], sent => (sent, none)
  | client :: rest, sent =>
    if client.readyState = WebSocket.OPEN then
      if client.sendThrows then (sent, some JSError.sendFailed)
      else forEachClient stringify sensorData rest
        (sent ++ [(client.id, stringify (reduceSnapshot sensorData))])
    else forEachClient stringify sensorData rest sent

/-- How an invocation ends. -/
inductive Completion where
  | returned
  | threw (e : JSError)
deriving DecidableEq, Repr

/-- What one invocation of `sendSensorData` did. -/
structure Broadcast where
  sent : List (Nat × String)
  logged : Option JSError
  completion : Completion
deriving DecidableEq, Repr

/-- The query text of `sendSensorData`. -/
def realTimeQuery : String :=
  "SELECT * FROM sensor_data_real_time ORDER BY sonde DESC LIMIT ?"

/-- The function `sendSensorData`: fetch, build, push; every exception of the
body is caught and logged. -/
def sendSensorData (fetchData : Gateway) (stringify : Obj Row → String)
    (clients : List Channel) : Broadcast :=
  match fetchData realTimeQuery [Param.int nbSondes] with
  | Except.error err => { sent := [], logged := some err, completion := Completion.returned }
  | Except.ok results =>
    match forEachClient stringify (sensorData nbSondes results) clients [] with
    | (sent, none) => { sent := sent, logged := none, completion := Completion.returned }
    | (sent, some err) => { sent := sent, logged := some err, completion := Completion.returned }

/-! ## Historical query (`/historic-data`, `formatData`) -/

/-- The interval `24 hour`, in milliseconds. -/
def interval24Hour : Int := 24 * 3600 * 1000

/-- The interval `7 day`, in milliseconds. -/
def interval7Day : Int := 7 * 24 * 3600 * 1000

/-- The value compared with `poids` in the query text,
`if((?)<now()- interval 24 hour,if((?)<now() - interval 7 day ,3600,60),1)`,
where both parameters are `new Date(start)`.  Instants are milliseconds. -/
def bucketWidth (start now : Int) : Nat :=
  if start < now - interval24Hour then
    (if start < now - interval7Day then 3600 else 60)
  else 1

/-- The value of one sensor in the object built by `formatData`. -/
structure Entry where
  dates : List Val
  temperature : List Val
  humidite : List Val
  co2 : List Val
  compose_organic_volatile : List Val
  decibels : List Val
  particules_fines : List Val
deriving DecidableEq, Repr

/-- The object literal installed for a sensor seen for the first time. -/
def emptyEntry : Entry :=
  { dates := [], temperature := [], humidite := [], co2 := [],
    compose_organic_volatile := [], decibels := [], particules_fines := [] }

/-- The call `entry[name].push(v)`.  A name that is not a property holding an
array makes the call throw a `TypeError`. -/
def Entry.push (e : Entry) (name : String) (v : Val) : Except JSError Entry :=
  if name = "dates" then Except.ok { e with dates := e.dates ++ [v] }
  else if name = "temperature" then Except.ok { e with temperature := e.temperature ++ [v] }
  else if name = "humidite" then Except.ok { e with humidite := e.humidite ++ [v] }
  else if name = "co2" then Except.ok { e with co2 := e.co2 ++ [v] }
  else if name = "compose_organic_volatile" then
    Except.ok { e with compose_organic_volatile := e.compose_organic_volatile ++ [v] }
  else if name = "decibels" then Except.ok { e with decibels := e.decibels ++ [v] }
  else if name = "particules_fines" then
    Except.ok { e with particules_fines := e.particules_fines ++ [v] }
  else Except.error JSError.typeError

/-- The body of the reducer of `formatData` for one row.  The entry worked on
is the one already stored under `row.sonde`, or the fresh one the reducer
installs when there is none. -/
def formatStep (measure : String) (acc : Obj Entry) (row : Row) :
    Except JSError (Obj Entry) :=
  let entry :=
    match Obj.get? acc row.sonde with
    | some e => e
    | none => emptyEntry
  let dated := { entry with dates := entry.dates ++ [row.timestamp] }
  match Entry.push dated measure (row.get measure) with
  | Except.error err => Except.error err
  | Except.ok pushed => Except.ok (Obj.set acc row.sonde pushed)

/-- The reduction `rows.reduce(step, acc)`, which stops at the first throw. -/
def formatLoop (measure : String) : List Row → Obj Entry → Except JSError (Obj Entry)
  | [], acc => Except.ok acc
  | row :: rest, acc =>
    match formatStep measure acc row with
    | Except.error err => Except.error err
    | Except.ok acc1 => formatLoop measure rest acc1

/-- The function `formatData(rows, measure)`. -/
def formatData (rows : List Row) (measure : String) : Except JSError (Obj Entry) :=
  formatLoop measure rows []

/-- The query parameters of a request, `req.query`; `none` is a parameter that
is absent. -/
structure Query where
  start : Option QueryValue
  end_ : Option QueryValue
  sondes : Option QueryValue
  measure : Option QueryValue
deriving DecidableEq, Repr

/-- The text of a query parameter used as a template part or as a property
name: an absent parameter reads `undefined`, an array reads as its items
joined by commas, an object reads `[object Object]`. -/
def paramText : Option QueryValue → String
  | none => "undefined"
  | some (QueryValue.text s) => s
  | some (QueryValue.array items) => String.intercalate "," items
  | some (QueryValue.object _) => "[object Object]"

/-- The template literal `query` of the handler with `measure` put in. -/
def historicQuery (measure : String) : String :=
  "\n        SELECT * FROM sensor_data_historic \n        WHERE timestamp BETWEEN ? AND ? \n        AND sonde IN (?) \n        AND if((?)<now()- interval 24 hour,if((?)<now() - interval 7 day ,3600,60),1)=poids\n        AND "
    ++ measure ++ " > 0"

/-- A response body. -/
inductive Body where
  | json (o : Obj Entry)
  | text (s : String)
deriving DecidableEq, Repr

/-- A response sent to the caller. -/
structure Reply where
  status : Nat
  body : Body
deriving DecidableEq, Repr

/-- What one run of the `/historic-data` handler did: the calls of `fetchData`
it made, the response it sent (if any) and how it ended. -/
structure Handled where
  calls : List (String × List Param)
  reply : Option Reply
  completion : Completion
deriving DecidableEq, Repr

/-- The handler of `GET /historic-data`.  The split of `sondes` stands before
the `try`; the fetch and the formatting stand inside it.  Only a text has a
`split` method: on an absent `sondes`, an array or an object the call
`sondes.split(',')` throws a `TypeError`. -/
def historicData (fetchData : Gateway) (q : Query) : Handled :=
  match q.sondes with
  | none => { calls := [], reply := none, completion := Completion.threw JSError.typeError }
  | some (QueryValue.array _) =>
    { calls := [], reply := none, completion := Completion.threw JSError.typeError }
  | some (QueryValue.object _) =>
    { calls := [], reply := none, completion := Completion.threw JSError.typeError }
  | some (QueryValue.text sondes) =>
    let selectedSondes := Param.numbers (sondes.splitOn ",")
    let measure := paramText q.measure
    let query := historicQuery measure
    let params := [Param.date q.start, Param.date q.end_, selectedSondes,
      Param.date q.start, Param.date q.start]
    match fetchData query params with
    | Except.error _ =>
      { calls := [(query, params)], reply := some { status := 500, body := Body.text "Server error" },
        completion := Completion.returned }
    | Except.ok rows =>
      match formatData rows measure with
      | Except.ok o =>
        { calls := [(query, params)], reply := some { status := 200, body := Body.json o },
          completion := Completion.returned }
      | Except.error _ =>
        { calls := [(query, params)],
          reply := some { status := 500, body := Body.text "Server error" },
          completion := Completion.returned }

/-! ## The known measurement names -/

/-- The six measurement names: the keys of `defaultSensorData`, which are also
the measurement arrays of an `Entry`. -/
inductive Measure where
  | temperature
  | humidite
  | co2
  | compose_organic_volatile
  | decibels
  | particules_fines
deriving DecidableEq, Repr

/-- The six measurement names as texts. -/
def measureNames : List String :=
  ["temperature", "humidite", "co2", "compose_organic_volatile", "decibels",
   "particules_fines"]

/-- The text of a measurement name. -/
def Measure.name : Measure → String
  | Measure.temperature => "temperature"
  | Measure.humidite => "humidite"
  | Measure.co2 => "co2"
  | Measure.compose_organic_volatile => "compose_organic_volatile"
  | Measure.decibels => "decibels"
  | Measure.particules_fines => "particules_fines"

/-- The column of a row for a measurement. -/
def Row.measure (row : Row) : Measure → Val
  | Measure.temperature => row.temperature
  | Measure.humidite => row.humidite
  | Measure.co2 => row.co2
  | Measure.compose_organic_volatile => row.compose_organic_volatile
  | Measure.decibels => row.decibels
  | Measure.particules_fines => row.particules_fines

/-- The sequence of an entry for a measurement. -/
def Entry.seq (e : Entry) : Measure → List Val
  | Measure.temperature => e.temperature
  | Measure.humidite => e.humidite
  | Measure.co2 => e.co2
  | Measure.compose_organic_volatile => e.compose_organic_volatile
  | Measure.decibels => e.decibels
  | Measure.particules_fines => e.particules_fines

/-- The rows of one sensor, in input order. -/
def rowsOf (rows : List Row) (s : Int) : List Row :=
  rows.filter fun row => row.sonde == s

/-- Ascending order of two copied values: both are numbers and the first is
not greater than the second. -/
def Val.le : Val → Val → Prop
  | Val.num a, Val.num b => a ≤ b
  | Val.num _, Val.undefined => False
  | Val.undefined, _ => False

instance Val.decLe : (a b : Val) → Decidable (Val.le a b)
  | Val.num a, Val.num b => Int.decLe a b
  | Val.num _, Val.undefined => isFalse (fun h => h)
  | Val.undefined, _ => isFalse (fun h => h)

/-! ## Auxiliary definitions used in the statements and proofs -/

/-- The row chosen for position `i` of `sensorData`. -/
def chosenRow (results : List Row) (i : Int) : Row :=
  match results.find? (fun row => row.sonde == i) with
  | some row => row
  | none => defaultRow i

/-- Whether a channel is in the `OPEN` state. -/
def Channel.isOpen (c : Channel) : Bool := c.readyState == WebSocket.OPEN

/-- The deliveries of a payload to the `OPEN` channels of a list. -/
def deliveries (payload : String) (clients : List Channel) : List (Nat × String) :=
  (clients.filter Channel.isOpen).map fun c => (c.id, payload)

/-- A gateway whose every call succeeds with no row. -/
def emptyGateway : Gateway := fun _ _ => Except.ok []

/-- A gateway whose every call throws. -/
def failingGateway : Gateway := fun _ _ => Except.error JSError.database

/-- A serializer used in examples. -/
def constStringify : Obj Row → String := fun _ => "payload"

/-- The effect of one reducer run on the entry of the row's sensor, for a
known measurement: the timestamp goes to `dates`, the value to its sequence. -/
def Entry.record (e : Entry) (m : Measure) (row : Row) : Entry :=
  match m with
  | Measure.temperature =>
    { e with dates := e.dates ++ [row.timestamp],
             temperature := e.temperature ++ [row.temperature] }
  | Measure.humidite =>
    { e with dates := e.dates ++ [row.timestamp], humidite := e.humidite ++ [row.humidite] }
  | Measure.co2 =>
    { e with dates := e.dates ++ [row.timestamp], co2 := e.co2 ++ [row.co2] }
  | Measure.compose_organic_volatile =>
    { e with dates := e.dates ++ [row.timestamp],
             compose_organic_volatile :=
               e.compose_organic_volatile ++ [row.compose_organic_volatile] }
  | Measure.decibels =>
    { e with dates := e.dates ++ [row.timestamp], decibels := e.decibels ++ [row.decibels] }
  | Measure.particules_fines =>
    { e with dates := e.dates ++ [row.timestamp],
             particules_fines := e.particules_fines ++ [row.particules_fines] }

/-- The entry that holds the timestamps and the values of one measurement of a
list of rows, and nothing else. -/
def seriesEntry (m : Measure) (rs : List Row) : Entry :=
  match m with
  | Measure.temperature =>
    { emptyEntry with dates := rs.map fun r => r.timestamp,
                      temperature := rs.map fun r => r.temperature }
  | Measure.humidite =>
    { emptyEntry with dates := rs.map fun r => r.timestamp,
                      humidite := rs.map fun r => r.humidite }
  | Measure.co2 =>
    { emptyEntry with dates := rs.map fun r => r.timestamp, co2 := rs.map fun r => r.co2 }
  | Measure.compose_organic_volatile =>
    { emptyEntry with dates := rs.map fun r => r.timestamp,
                      compose_organic_volatile := rs.map fun r => r.compose_organic_volatile }
  | Measure.decibels =>
    { emptyEntry with dates := rs.map fun r => r.timestamp,
                      decibels := rs.map fun r => r.decibels }
  | Measure.particules_fines =>
    { emptyEntry with dates := rs.map fun r => r.timestamp,
                      particules_fines := rs.map fun r => r.particules_fines }

/-- The state of the accumulator after the rows `seen`: each sensor that
occurs in them holds its series, no other key is present. -/
def Accumulated (m : Measure) (acc : Obj Entry) (seen : List Row) : Prop :=
  (Obj.keys acc).Nodup
    ∧ ∀ s : Int, Obj.get? acc s
        = if rowsOf seen s = [] then none else some (seriesEntry m (rowsOf seen s))

/-- The row `{ sonde: s, timestamp: t, decibels: d }`; its other columns are
`undefined`. -/
def decibelRow (s : Int) (t : Val) (d : Int) : Row :=
  { sonde := s, timestamp := t, temperature := Val.undefined, humidite := Val.undefined,
    co2 := Val.undefined, compose_organic_volatile := Val.undefined,
    decibels := Val.num d, particules_fines := Val.undefined }

/-! ## Lemmas on objects -/

theorem Obj.set_of_not_mem {α : Type} (o : Obj α) (k : Int) (v : α)
    (h : k ∉ Obj.keys o) : Obj.set o k v = o ++ [(k, v)] := by
  induction o with
  | nil => rfl
  | cons p t ih =>
    obtain ⟨k1, v1⟩ := p
    simp only [Obj.keys, List.map_cons, List.mem_cons, not_or] at h
    have hne : ¬ k1 = k := fun e => h.1 e.symm
    simp only [Obj.set, hne, if_false, List.cons_append]
    rw [ih h.2]

theorem Obj.get?_of_mem {α : Type} (o : Obj α) (k : Int) (v : α)
    (hnd : (Obj.keys o).Nodup) (h : (k, v) ∈ o) : Obj.get? o k = some v := by
  induction o with
  | nil => simp at h
  | cons p t ih =>
    obtain ⟨k1, v1⟩ := p
    simp only [Obj.keys, List.map_cons, List.nodup_cons] at hnd
    rcases List.mem_cons.mp h with heq | hmem
    · cases heq
      simp [Obj.get?]
    · have hk : k ∈ List.map Prod.fst t := List.mem_map.mpr ⟨(k, v), hmem, rfl⟩
      have hne : ¬ k1 = k := fun e => hnd.1 (e ▸ hk)
      simp only [Obj.get?, hne, if_false]
      exact ih hnd.2 hmem

theorem Obj.get?_eq_none {α : Type} (o : Obj α) (k : Int)
    (h : k ∉ Obj.keys o) : Obj.get? o k = none := by
  induction o with
  | nil => rfl
  | cons p t ih =>
    obtain ⟨k1, v1⟩ := p
    simp only [Obj.keys, List.map_cons, List.mem_cons, not_or] at h
    have hne : ¬ k1 = k := fun e => h.1 e.symm
    simp only [Obj.get?, hne, if_false]
    exact ih h.2

/-- Folding property writes of records with pairwise distinct keys, none of
them present yet, appends them in order. -/
theorem foldl_set_distinct (l : List Row) (acc : Obj Row)
    (hnd : (l.map fun r => r.sonde).Nodup)
    (hdis : ∀ r ∈ l, r.sonde ∉ Obj.keys acc) :
    l.foldl (fun acc curr => Obj.set acc curr.sonde curr) acc
      = acc ++ l.map fun r => (r.sonde, r) := by
  induction l generalizing acc with
  | nil => simp
  | cons r t ih =>
    simp only [List.map_cons, List.nodup_cons] at hnd
    simp only [List.foldl_cons, List.map_cons]
    rw [Obj.set_of_not_mem acc r.sonde r (hdis r (List.mem_cons_self _ _))]
    rw [ih _ hnd.2]
    · simp
    · intro r1 hr1 hmem
      simp only [Obj.keys, List.map_append, List.map_cons, List.map_nil, List.mem_append,
        List.mem_singleton] at hmem
      rcases hmem with hmem | hmem
      · exact hdis r1 (List.mem_cons_of_mem _ hr1) hmem
      · exact hnd.1 (hmem ▸ List.mem_map.mpr ⟨r1, hr1, rfl⟩)

theorem chosenRow_sonde (results : List Row) (i : Int) :
    (chosenRow results i).sonde = i := by
  unfold chosenRow
  cases h : results.find? (fun row => row.sonde == i) with
  | none => rfl
  | some row =>
    have := List.find?_some h
    simpa using this

theorem chosenRow_first (front : List Row) (row : Row) (back : List Row) (i : Int)
    (hrow : row.sonde = i) (hfront : ∀ x ∈ front, x.sonde ≠ i) :
    chosenRow (front ++ row :: back) i = row := by
  unfold chosenRow
  have hfind : (front ++ row :: back).find? (fun r => r.sonde == i) = some row := by
    induction front with
    | nil => simp [List.find?, hrow]
    | cons x t ih =>
      have hx : (x.sonde == i) = false := by
        simpa using hfront x (List.mem_cons_self _ _)
      simp only [List.cons_append, List.find?, hx]
      exact ih fun y hy => hfront y (List.mem_cons_of_mem _ hy)
  rw [hfind]

theorem chosenRow_absent (results : List Row) (i : Int)
    (hnone : ∀ x ∈ results, x.sonde ≠ i) : chosenRow results i = defaultRow i := by
  unfold chosenRow
  have hfind : results.find? (fun r => r.sonde == i) = none := by
    rw [List.find?_eq_none]
    intro x hx
    simpa using hnone x hx
  rw [hfind]

theorem sensorData_eq (n : Nat) (results : List Row) :
    sensorData n results = (List.range n).map fun (i : Nat) => chosenRow results ((i : Int) + 1) := rfl

theorem sensorData_sonde (n : Nat) (results : List Row) :
    (sensorData n results).map (fun r => r.sonde)
      = (List.range n).map fun (i : Nat) => (i : Int) + 1 := by
  rw [sensorData_eq, List.map_map]
  apply List.map_congr_left
  intro i _
  exact chosenRow_sonde results _

theorem identifiers_nodup (n : Nat) :
    ((List.range n).map fun (i : Nat) => (i : Int) + 1).Nodup := by
  apply List.Nodup.map _ (List.nodup_range n)
  intro a b h
  simpa using h

theorem snapshot_eq (n : Nat) (results : List Row) :
    snapshot n results = (sensorData n results).map fun r => (r.sonde, r) := by
  unfold snapshot reduceSnapshot
  rw [foldl_set_distinct]
  · simp
  · rw [sensorData_sonde]; exact identifiers_nodup n
  · intro r _ h; simp [Obj.keys] at h

theorem snapshot_keys (n : Nat) (results : List Row) :
    Obj.keys (snapshot n results) = (List.range n).map fun (i : Nat) => (i : Int) + 1 := by
  rw [snapshot_eq, Obj.keys, List.map_map]
  exact sensorData_sonde n results

/-! ## Claims on the live snapshot -/

/-- C1: for every sensor count and every list of rows returned by the gateway
(any length, any `sonde` values, duplicates allowed), the snapshot built from
it has exactly that many entries and its keys are exactly the identifiers
`1..n`, each once; for the configured `nbSondes` the keys are `1, 2, 3, 4, 5`. -/
theorem snapshot_identifiers (n : Nat) (results : List Row) :
    Obj.keys (snapshot n results) = (List.range n).map (fun (i : Nat) => (i : Int) + 1)
      ∧ (snapshot n results).length = n
      ∧ (Obj.keys (snapshot n results)).Nodup
      ∧ (∀ k : Int, k ∈ Obj.keys (snapshot n results) ↔ 1 ≤ k ∧ k ≤ n)
      ∧ Obj.keys (snapshot nbSondes results) = [1, 2, 3, 4, 5] := by
  refine ⟨snapshot_keys n results, ?_, ?_, ?_, ?_⟩
  · have h := congrArg List.length (snapshot_keys n results)
    simpa [Obj.keys] using h
  · rw [snapshot_keys]; exact identifiers_nodup n
  · intro k
    rw [snapshot_keys]
    simp only [List.mem_map, List.mem_range]
    constructor
    · rintro ⟨i, hi, rfl⟩
      omega
    · rintro ⟨h1, h2⟩
      refine ⟨(k - 1).toNat, ?_, ?_⟩ <;> omega
  · rw [snapshot_keys]; rfl

/-- C2: for every list of gateway rows and every identifier `i` in `1..n`, the
snapshot entry for `i` is the row of the result with `sonde = i` when one is
present, namely the first such row in result order, and otherwise it is the
reading with `sonde = i` whose six measurements are all the sentinel `-1`. -/
theorem snapshot_entry (n : Nat) (results : List Row) (i : Int)
    (h1 : 1 ≤ i) (hn : i ≤ n) :
    (∀ (front : List Row) (row : Row) (back : List Row),
        results = front ++ row :: back → row.sonde = i → (∀ x ∈ front, x.sonde ≠ i) →
          Obj.get? (snapshot n results) i = some row)
      ∧ ((∀ x ∈ results, x.sonde ≠ i) →
          Obj.get? (snapshot n results) i
            = some { sonde := i, timestamp := Val.undefined,
                     temperature := Val.num (-1), humidite := Val.num (-1),
                     co2 := Val.num (-1), compose_organic_volatile := Val.num (-1),
                     decibels := Val.num (-1), particules_fines := Val.num (-1) }) := by
  have hget : Obj.get? (snapshot n results) i = some (chosenRow results i) := by
    apply Obj.get?_of_mem
    · rw [snapshot_keys]; exact identifiers_nodup n
    · rw [snapshot_eq, sensorData_eq, List.map_map]
      refine List.mem_map.mpr ⟨(i - 1).toNat, ?_, ?_⟩
      · rw [List.mem_range]; omega
      · have hi : (((i - 1).toNat : Nat) : Int) + 1 = i := by omega
        simp only [Function.comp, hi, chosenRow_sonde]
  constructor
  · intro front row back hres hrow hfront
    rw [hget, hres, chosenRow_first front row back i hrow hfront]
  · intro hnone
    rw [hget, chosenRow_absent results i hnone]
    rfl

theorem snapshot_entry_witness :
    Obj.get? (snapshot 5 [decibelRow 7 Val.undefined 20, decibelRow 2 Val.undefined 40,
        decibelRow 2 Val.undefined 60]) 2
        = some (decibelRow 2 Val.undefined 40)
      ∧ Obj.get? (snapshot 5 [decibelRow 7 Val.undefined 20, decibelRow 2 Val.undefined 40,
        decibelRow 2 Val.undefined 60]) 3
        = some (defaultRow 3) :=
  ⟨(snapshot_entry 5 _ 2 (by decide) (by decide)).1 [decibelRow 7 Val.undefined 20]
      (decibelRow 2 Val.undefined 40) [decibelRow 2 Val.undefined 60] rfl rfl (by decide),
   (snapshot_entry 5 _ 3 (by decide) (by decide)).2 (by decide)⟩

/-! ## Claims on the broadcast -/

theorem forEachClient_append (stringify : Obj Row → String) (sd : List Row)
    (front rest : List Channel) (sent : List (Nat × String))
    (hfront : ∀ c ∈ front, c.readyState = WebSocket.OPEN → c.sendThrows = false) :
    forEachClient stringify sd (front ++ rest) sent
      = forEachClient stringify sd rest
          (sent ++ deliveries (stringify (reduceSnapshot sd)) front) := by
  induction front generalizing sent with
  | nil => simp [deliveries]
  | cons c t ih =>
    have ht : ∀ x ∈ t, x.readyState = WebSocket.OPEN → x.sendThrows = false :=
      fun x hx => hfront x (List.mem_cons_of_mem _ hx)
    by_cases hopen : c.readyState = WebSocket.OPEN
    · have hc : c.sendThrows = false := hfront c (List.mem_cons_self _ _) hopen
      rw [List.cons_append, forEachClient]
      simp only [hopen, if_true, hc, Bool.false_eq_true, if_false]
      rw [ih _ ht]
      simp [deliveries, Channel.isOpen, hopen]
    · rw [List.cons_append, forEachClient]
      simp only [hopen, if_false]
      rw [ih _ ht]
      simp [deliveries, Channel.isOpen, hopen]

theorem forEachClient_all (stringify : Obj Row → String) (sd : List Row)
    (clients : List Channel)
    (hsend : ∀ c ∈ clients, c.readyState = WebSocket.OPEN → c.sendThrows = false) :
    forEachClient stringify sd clients []
      = (deliveries (stringify (reduceSnapshot sd)) clients, none) := by
  have h := forEachClient_append stringify sd clients [] [] hsend
  simpa [forEachClient] using h

theorem forEachClient_stop (stringify : Obj Row → String) (sd : List Row)
    (front back : List Channel) (c : Channel)
    (hfront : ∀ x ∈ front, x.readyState = WebSocket.OPEN → x.sendThrows = false)
    (hopen : c.readyState = WebSocket.OPEN) (hthrows : c.sendThrows = true) :
    forEachClient stringify sd (front ++ c :: back) []
      = (deliveries (stringify (reduceSnapshot sd)) front, some JSError.sendFailed) := by
  rw [forEachClient_append stringify sd front (c :: back) [] hfront]
  simp [forEachClient, hopen, hthrows]

/-- C3, as stated, fails: with channel 1 `OPEN` and throwing on `send`,
channel 2 closed and channel 3 `OPEN`, a successful fetch delivers nothing,
although channel 3 is `OPEN`. -/
theorem broadcast_open_counterexample :
    (sendSensorData emptyGateway constStringify
        [{ id := 1, readyState := 1, sendThrows := true },
         { id := 2, readyState := 3, sendThrows := false },
         { id := 3, readyState := 1, sendThrows := false }]).sent = []
      ∧ deliveries (constStringify (snapshot nbSondes []))
          [{ id := 1, readyState := 1, sendThrows := true },
           { id := 2, readyState := 3, sendThrows := false },
           { id := 3, readyState := 1, sendThrows := false }]
        = [(1, "payload"), (3, "payload")] := by
  constructor <;> rfl

/-- C3 (amended): for every set of subscriber channels on which no send to an
`OPEN` channel throws, and every successful fetch, one invocation of
`sendSensorData` delivers to exactly the `OPEN` channels, every delivered
payload is the serialization of the one snapshot of that invocation, and a
channel that is not `OPEN` receives nothing and does not hinder the others. -/
theorem broadcast_open (fetchData : Gateway) (stringify : Obj Row → String)
    (clients : List Channel) (results : List Row)
    (hfetch : fetchData realTimeQuery [Param.int nbSondes] = Except.ok results)
    (hsend : ∀ c ∈ clients, c.readyState = WebSocket.OPEN → c.sendThrows = false) :
    (sendSensorData fetchData stringify clients).sent
        = (clients.filter fun c => c.readyState == WebSocket.OPEN).map
            (fun c => (c.id, stringify (snapshot nbSondes results)))
      ∧ (∀ d ∈ (sendSensorData fetchData stringify clients).sent,
          d.2 = stringify (snapshot nbSondes results)
            ∧ ∃ c ∈ clients, c.readyState = WebSocket.OPEN ∧ c.id = d.1)
      ∧ (∀ c ∈ clients, c.readyState = WebSocket.OPEN →
          (c.id, stringify (snapshot nbSondes results))
            ∈ (sendSensorData fetchData stringify clients).sent)
      ∧ (sendSensorData fetchData stringify clients).completion = Completion.returned
      ∧ (sendSensorData fetchData stringify clients).logged = none := by
  have hsent : sendSensorData fetchData stringify clients
      = { sent := deliveries (stringify (snapshot nbSondes results)) clients,
          logged := none, completion := Completion.returned } := by
    simp only [sendSensorData, hfetch, forEachClient_all _ _ clients hsend, snapshot]
  rw [hsent]
  refine ⟨rfl, ?_, ?_, rfl, rfl⟩
  · intro d hd
    simp only [deliveries, List.mem_map, List.mem_filter] at hd
    obtain ⟨c, ⟨hc, hopen⟩, rfl⟩ := hd
    refine ⟨rfl, c, hc, ?_, rfl⟩
    simpa [Channel.isOpen] using hopen
  · intro c hc hopen
    simp only [deliveries, List.mem_map, List.mem_filter]
    exact ⟨c, ⟨hc, by simp [Channel.isOpen, hopen]⟩, rfl⟩

theorem broadcast_open_witness :
    (sendSensorData emptyGateway constStringify
        [{ id := 1, readyState := 1, sendThrows := false },
         { id := 2, readyState := 3, sendThrows := true },
         { id := 3, readyState := 1, sendThrows := false }]).sent
      = [(1, "payload"), (3, "payload")] :=
  (broadcast_open emptyGateway constStringify
    [{ id := 1, readyState := 1, sendThrows := false },
     { id := 2, readyState := 3, sendThrows := true },
     { id := 3, readyState := 1, sendThrows := false }] [] rfl (by decide)).1

/-- C7: if the fetch of the latest rows throws, no payload is sent to any
subscriber channel in that invocation, the error is logged, and
`sendSensorData` completes without throwing. -/
theorem broadcast_fetch_failure (fetchData : Gateway) (stringify : Obj Row → String)
    (clients : List Channel) (err : JSError)
    (hfetch : fetchData realTimeQuery [Param.int nbSondes] = Except.error err) :
    (sendSensorData fetchData stringify clients).sent = []
      ∧ (sendSensorData fetchData stringify clients).completion = Completion.returned
      ∧ (sendSensorData fetchData stringify clients).logged = some err := by
  simp only [sendSensorData, hfetch, and_self]

theorem broadcast_fetch_failure_witness :
    (sendSensorData failingGateway constStringify
        [{ id := 1, readyState := 1, sendThrows := false }]).sent = []
      ∧ (sendSensorData failingGateway constStringify
        [{ id := 1, readyState := 1, sendThrows := false }]).completion = Completion.returned :=
  ⟨(broadcast_fetch_failure failingGateway constStringify _ JSError.database rfl).1,
   (broadcast_fetch_failure failingGateway constStringify _ JSError.database rfl).2.1⟩

/-- C9, as stated, fails: channels 1 and 2 are both `OPEN`, the send on
channel 1 throws, and channel 2 receives nothing. -/
theorem broadcast_send_failure_counterexample :
    (sendSensorData emptyGateway constStringify
        [{ id := 1, readyState := 1, sendThrows := true },
         { id := 2, readyState := 1, sendThrows := false }]).sent = []
      ∧ (2, constStringify (snapshot nbSondes []))
          ∉ (sendSensorData emptyGateway constStringify
              [{ id := 1, readyState := 1, sendThrows := true },
               { id := 2, readyState := 1, sendThrows := false }]).sent := by
  constructor
  · rfl
  · decide

/-- C9 (amended): when the send on an `OPEN` channel throws, the loop over the
channels stops there: the `OPEN` channels before it in iteration order have
received the payload, no channel after it receives anything, and the
exception is caught and logged by `sendSensorData`, which completes without
throwing. -/
theorem broadcast_send_failure (fetchData : Gateway) (stringify : Obj Row → String)
    (front back : List Channel) (c : Channel) (results : List Row)
    (hfetch : fetchData realTimeQuery [Param.int nbSondes] = Except.ok results)
    (hfront : ∀ x ∈ front, x.readyState = WebSocket.OPEN → x.sendThrows = false)
    (hopen : c.readyState = WebSocket.OPEN) (hthrows : c.sendThrows = true) :
    (sendSensorData fetchData stringify (front ++ c :: back)).sent
        = (front.filter fun x => x.readyState == WebSocket.OPEN).map
            (fun x => (x.id, stringify (snapshot nbSondes results)))
      ∧ (sendSensorData fetchData stringify (front ++ c :: back)).logged
        = some JSError.sendFailed
      ∧ (sendSensorData fetchData stringify (front ++ c :: back)).completion
        = Completion.returned := by
  have hsent : sendSensorData fetchData stringify (front ++ c :: back)
      = { sent := deliveries (stringify (snapshot nbSondes results)) front,
          logged := some JSError.sendFailed, completion := Completion.returned } := by
    simp only [sendSensorData, hfetch, forEachClient_stop _ _ front back c hfront hopen hthrows,
      snapshot]
  rw [hsent]
  exact ⟨rfl, rfl, rfl⟩

theorem broadcast_send_failure_witness :
    (sendSensorData emptyGateway constStringify
        ([{ id := 1, readyState := 1, sendThrows := false },
          { id := 2, readyState := 0, sendThrows := false }]
          ++ { id := 3, readyState := 1, sendThrows := true }
            :: [{ id := 4, readyState := 1, sendThrows := false }])).sent
      = [(1, "payload")] :=
  (broadcast_send_failure emptyGateway constStringify
    [{ id := 1, readyState := 1, sendThrows := false },
     { id := 2, readyState := 0, sendThrows := false }]
    [{ id := 4, readyState := 1, sendThrows := false }]
    { id := 3, readyState := 1, sendThrows := true } [] rfl (by decide) rfl rfl).1

/-! ## Claims on the historical query handler -/

/-- C5: for every start instant and every `now`, the value compared with
`poids` is 3600 when `start` is more than 7 days before `now`, 60 when it is
more than 24 hours but not more than 7 days before `now`, and 1 otherwise;
8 days back gives 3600, 2 days back 60, 1 hour back 1, and the boundaries are
strict: exactly 24 hours back gives 1, exactly 7 days back gives 60. -/
theorem bucketWidth_selection (start now : Int) :
    bucketWidth start now
        = (if now - start > 7 * 24 * 3600 * 1000 then 3600
           else if now - start > 24 * 3600 * 1000 then 60
           else 1)
      ∧ bucketWidth (now - 8 * 24 * 3600 * 1000) now = 3600
      ∧ bucketWidth (now - 2 * 24 * 3600 * 1000) now = 60
      ∧ bucketWidth (now - 3600 * 1000) now = 1
      ∧ bucketWidth (now - 24 * 3600 * 1000) now = 1
      ∧ bucketWidth (now - 7 * 24 * 3600 * 1000) now = 60 := by
  refine ⟨?_, ?_, ?_, ?_, ?_, ?_⟩
  · unfold bucketWidth interval24Hour interval7Day
    split_ifs <;> first | rfl | omega
  all_goals
    unfold bucketWidth interval24Hour interval7Day
    split_ifs <;> first | rfl | omega

theorem Entry.push_unknown (e : Entry) (name : String) (v : Val)
    (hm : name ∉ measureNames) (hd : name ≠ "dates") :
    Entry.push e name v = Except.error JSError.typeError := by
  simp only [measureNames, List.mem_cons, List.mem_singleton, List.not_mem_nil, or_false,
    not_or] at hm
  obtain ⟨h1, h2, h3, h4, h5, h6⟩ := hm
  simp only [Entry.push, hd, h1, h2, h3, h4, h5, h6, if_false]

theorem formatData_unknown (row : Row) (rest : List Row) (name : String)
    (hm : name ∉ measureNames) (hd : name ≠ "dates") :
    formatData (row :: rest) name = Except.error JSError.typeError := by
  simp only [formatData, formatLoop, formatStep, Entry.push_unknown _ name _ hm hd]

/-- C4, as stated, fails: a request whose measure is the unknown name `bogus`
reaches the gateway once and is answered with status 500, not with a
validation error. -/
theorem historic_validation_counterexample :
    (historicData failingGateway
        { start := some (QueryValue.text "2024-05-01"),
          end_ := some (QueryValue.text "2024-05-02"),
          sondes := some (QueryValue.text "1"),
          measure := some (QueryValue.text "bogus") }).calls.length = 1
      ∧ (historicData failingGateway
        { start := some (QueryValue.text "2024-05-01"),
          end_ := some (QueryValue.text "2024-05-02"),
          sondes := some (QueryValue.text "1"),
          measure := some (QueryValue.text "bogus") }).reply
        = some { status := 500, body := Body.text "Server error" } := by
  constructor <;> rfl

/-- C4 (amended): for every request to the historical query whose `sondes`
parameter is a text and whose measure is not one of the fixed known
measurement names, no validation rejects the request: the handler calls
`fetchData` exactly once, with the measure text put into the query text as it
came, and returns; it answers 500 with the body `Server error` when that call
throws or when `formatData` throws on the rows, which it does on every
non-empty result unless the measure text is `dates`, and it answers 200 with
the object `formatData` returns otherwise, the empty object on an empty
result. -/
theorem historic_no_validation (fetchData : Gateway) (q : Query) (sondes : String)
    (hsondes : q.sondes = some (QueryValue.text sondes))
    (hmeasure : paramText q.measure ∉ measureNames) :
    (historicData fetchData q).calls
        = [(historicQuery (paramText q.measure),
            [Param.date q.start, Param.date q.end_, Param.numbers (sondes.splitOn ","),
             Param.date q.start, Param.date q.start])]
      ∧ (historicData fetchData q).completion = Completion.returned
      ∧ (∀ err, fetchData (historicQuery (paramText q.measure))
            [Param.date q.start, Param.date q.end_, Param.numbers (sondes.splitOn ","),
             Param.date q.start, Param.date q.start] = Except.error err →
          (historicData fetchData q).reply
            = some { status := 500, body := Body.text "Server error" })
      ∧ (∀ rows o, fetchData (historicQuery (paramText q.measure))
            [Param.date q.start, Param.date q.end_, Param.numbers (sondes.splitOn ","),
             Param.date q.start, Param.date q.start] = Except.ok rows →
          formatData rows (paramText q.measure) = Except.ok o →
          (historicData fetchData q).reply = some { status := 200, body := Body.json o })
      ∧ (∀ rows err, fetchData (historicQuery (paramText q.measure))
            [Param.date q.start, Param.date q.end_, Param.numbers (sondes.splitOn ","),
             Param.date q.start, Param.date q.start] = Except.ok rows →
          formatData rows (paramText q.measure) = Except.error err →
          (historicData fetchData q).reply
            = some { status := 500, body := Body.text "Server error" })
      ∧ (fetchData (historicQuery (paramText q.measure))
            [Param.date q.start, Param.date q.end_, Param.numbers (sondes.splitOn ","),
             Param.date q.start, Param.date q.start] = Except.ok [] →
          (historicData fetchData q).reply = some { status := 200, body := Body.json [] })
      ∧ (∀ row rest, fetchData (historicQuery (paramText q.measure))
            [Param.date q.start, Param.date q.end_, Param.numbers (sondes.splitOn ","),
             Param.date q.start, Param.date q.start] = Except.ok (row :: rest) →
          paramText q.measure ≠ "dates" →
          (historicData fetchData q).reply
            = some { status := 500, body := Body.text "Server error" }) := by
  obtain ⟨start, end_, sd, measure⟩ := q
  simp only at hsondes hmeasure
  subst hsondes
  have hD : ∀ rows o, fetchData (historicQuery (paramText measure))
        [Param.date start, Param.date end_, Param.numbers (sondes.splitOn ","),
         Param.date start, Param.date start] = Except.ok rows →
      formatData rows (paramText measure) = Except.ok o →
      (historicData fetchData
        { start := start, end_ := end_, sondes := some (QueryValue.text sondes),
          measure := measure }).reply = some { status := 200, body := Body.json o } := by
    intro rows o hf hfmt
    simp only [historicData, hf, hfmt]
  have hE : ∀ rows err, fetchData (historicQuery (paramText measure))
        [Param.date start, Param.date end_, Param.numbers (sondes.splitOn ","),
         Param.date start, Param.date start] = Except.ok rows →
      formatData rows (paramText measure) = Except.error err →
      (historicData fetchData
        { start := start, end_ := end_, sondes := some (QueryValue.text sondes),
          measure := measure }).reply
        = some { status := 500, body := Body.text "Server error" } := by
    intro rows err hf hfmt
    simp only [historicData, hf, hfmt]
  refine ⟨?_, ?_, ?_, hD, hE, ?_, ?_⟩
  · simp only [historicData]
    split
    · rfl
    · split <;> rfl
  · simp only [historicData]
    split
    · rfl
    · split <;> rfl
  · intro err hf
    simp only [historicData, hf]
  · intro hf
    exact hD [] [] hf rfl
  · intro row rest hf hd
    exact hE (row :: rest) JSError.typeError hf (formatData_unknown row rest _ hmeasure hd)

theorem historic_no_validation_witness :
    (historicData emptyGateway
        { start := some (QueryValue.text "2024-05-01"),
          end_ := some (QueryValue.text "2024-05-02"),
          sondes := some (QueryValue.text "1,2"),
          measure := some (QueryValue.text "bogus") }).calls.length = 1
      ∧ (historicData emptyGateway
        { start := some (QueryValue.text "2024-05-01"),
          end_ := some (QueryValue.text "2024-05-02"),
          sondes := some (QueryValue.text "1,2"),
          measure := some (QueryValue.text "bogus") }).reply
        = some { status := 200, body := Body.json [] } :=
  ⟨congrArg List.length
      (historic_no_validation emptyGateway
        { start := some (QueryValue.text "2024-05-01"),
          end_ := some (QueryValue.text "2024-05-02"),
          sondes := some (QueryValue.text "1,2"),
          measure := some (QueryValue.text "bogus") } "1,2" rfl (by decide)).1,
   (historic_no_validation emptyGateway
        { start := some (QueryValue.text "2024-05-01"),
          end_ := some (QueryValue.text "2024-05-02"),
          sondes := some (QueryValue.text "1,2"),
          measure := some (QueryValue.text "bogus") } "1,2" rfl (by decide)).2.2.2.2.2.1 rfl⟩

/-- The handler on a request whose `sondes` is an array or an object: the call
of `split` throws before the `try`, as on an absent `sondes`. -/
theorem historic_sondes_not_text (fetchData : Gateway) (start end_ measure : Option QueryValue)
    (items : List String) (fields : List (String × String)) :
    historicData fetchData
        { start := start, end_ := end_, sondes := some (QueryValue.array items),
          measure := measure }
        = { calls := [], reply := none, completion := Completion.threw JSError.typeError }
      ∧ historicData fetchData
        { start := start, end_ := end_, sondes := some (QueryValue.object fields),
          measure := measure }
        = { calls := [], reply := none, completion := Completion.threw JSError.typeError } :=
  ⟨rfl, rfl⟩

/-- C8: the handler on a request without `sondes`.  The split of `sondes`
stands before the `try`, so the `TypeError` leaves the handler: no call of the
gateway, no response, whatever the gateway and the other parameters. -/
theorem historic_missing_sondes (fetchData : Gateway)
    (start end_ measure : Option QueryValue) :
    historicData fetchData
        { start := start, end_ := end_, sondes := none, measure := measure }
      = { calls := [], reply := none, completion := Completion.threw JSError.typeError } :=
  rfl

/-! ## Lemmas on `formatData` -/

theorem Obj.get?_set {α : Type} (o : Obj α) (k : Int) (v : α) (k2 : Int) :
    Obj.get? (Obj.set o k v) k2 = if k = k2 then some v else Obj.get? o k2 := by
  induction o with
  | nil => simp [Obj.set, Obj.get?]
  | cons p t ih =>
    obtain ⟨k1, v1⟩ := p
    by_cases h1 : k1 = k
    · subst h1
      simp only [Obj.set, if_true, Obj.get?]
      split_ifs <;> rfl
    · simp only [Obj.set, h1, if_false, Obj.get?, ih]
      by_cases h2 : k1 = k2
      · subst h2
        have : ¬ k = k1 := fun e => h1 e.symm
        simp [this]
      · simp [h2]

theorem Obj.keys_set {α : Type} (o : Obj α) (k : Int) (v : α) :
    Obj.keys (Obj.set o k v) = if k ∈ Obj.keys o then Obj.keys o else Obj.keys o ++ [k] := by
  induction o with
  | nil => simp [Obj.set, Obj.keys]
  | cons p t ih =>
    obtain ⟨k1, v1⟩ := p
    by_cases h1 : k1 = k
    · subst h1
      simp [Obj.set, Obj.keys]
    · have h1s : ¬ k = k1 := fun e => h1 e.symm
      simp only [Obj.keys] at ih
      simp only [Obj.set, h1, if_false, Obj.keys, List.map_cons, ih, List.mem_cons, h1s,
        false_or]
      split_ifs <;> simp

theorem Obj.mem_keys_iff {α : Type} (o : Obj α) (k : Int) :
    k ∈ Obj.keys o ↔ Obj.get? o k ≠ none := by
  induction o with
  | nil => simp [Obj.keys, Obj.get?]
  | cons p t ih =>
    obtain ⟨k1, v1⟩ := p
    simp only [Obj.keys] at ih
    by_cases h1 : k1 = k
    · subst h1
      simp [Obj.keys, Obj.get?]
    · have h1s : ¬ k = k1 := fun e => h1 e.symm
      simp [Obj.keys, Obj.get?, h1, h1s, ih]

theorem Obj.keys_set_nodup {α : Type} (o : Obj α) (k : Int) (v : α)
    (h : (Obj.keys o).Nodup) : (Obj.keys (Obj.set o k v)).Nodup := by
  rw [Obj.keys_set]
  split_ifs with hk
  · exact h
  · rw [List.nodup_append]
    refine ⟨h, List.nodup_singleton k, ?_⟩
    intro a ha hb
    rw [List.mem_singleton] at hb
    exact hk (hb ▸ ha)

theorem Entry.push_known (e : Entry) (m : Measure) (row : Row) :
    Entry.push { e with dates := e.dates ++ [row.timestamp] } m.name (row.get m.name)
      = Except.ok (e.record m row) := by
  cases m <;> rfl

theorem seriesEntry_nil (m : Measure) : seriesEntry m [] = emptyEntry := by
  cases m <;> rfl

theorem seriesEntry_snoc (m : Measure) (rs : List Row) (row : Row) :
    (seriesEntry m rs).record m row = seriesEntry m (rs ++ [row]) := by
  cases m <;> simp [seriesEntry, Entry.record, emptyEntry]

theorem seriesEntry_dates (m : Measure) (rs : List Row) :
    (seriesEntry m rs).dates = rs.map fun r => r.timestamp := by
  cases m <;> rfl

theorem seriesEntry_seq (m : Measure) (rs : List Row) :
    (seriesEntry m rs).seq m = rs.map fun r => r.measure m := by
  cases m <;> rfl

theorem seriesEntry_other (m m2 : Measure) (rs : List Row) (h : m2 ≠ m) :
    (seriesEntry m rs).seq m2 = [] := by
  cases m <;> cases m2 <;> first | rfl | exact absurd rfl h

theorem formatStep_known (m : Measure) (acc : Obj Entry) (row : Row) :
    formatStep m.name acc row
      = Except.ok (Obj.set acc row.sonde
          (Entry.record (match Obj.get? acc row.sonde with
            | some e => e
            | none => emptyEntry) m row)) := by
  simp only [formatStep, Entry.push_known]

theorem rowsOf_snoc (rows : List Row) (row : Row) (s : Int) :
    rowsOf (rows ++ [row]) s
      = if row.sonde = s then rowsOf rows s ++ [row] else rowsOf rows s := by
  unfold rowsOf
  rw [List.filter_append]
  by_cases h : row.sonde = s
  · simp [h, List.filter]
  · have hb : (row.sonde == s) = false := by simpa using h
    simp [h, hb, List.filter]

theorem accumulated_step (m : Measure) (acc : Obj Entry) (seen : List Row) (row : Row)
    (h : Accumulated m acc seen) :
    Accumulated m
      (Obj.set acc row.sonde
        (Entry.record (match Obj.get? acc row.sonde with
          | some e => e
          | none => emptyEntry) m row))
      (seen ++ [row]) := by
  refine ⟨Obj.keys_set_nodup _ _ _ h.1, ?_⟩
  intro s
  rw [Obj.get?_set, rowsOf_snoc]
  by_cases hs : row.sonde = s
  · subst hs
    simp only [if_true, List.append_eq_nil, List.cons_ne_self, and_false, if_false]
    rw [h.2 row.sonde]
    by_cases hempty : rowsOf seen row.sonde = []
    · simp only [hempty, if_true, List.nil_append]
      rw [← seriesEntry_nil m, seriesEntry_snoc]
      rfl
    · simp only [hempty, if_false]
      rw [seriesEntry_snoc]
  · simp only [hs, if_false]
    exact h.2 s

theorem formatLoop_known (m : Measure) (rest seen : List Row) (acc : Obj Entry)
    (h : Accumulated m acc seen) :
    ∃ o, formatLoop m.name rest acc = Except.ok o ∧ Accumulated m o (seen ++ rest) := by
  induction rest generalizing seen acc with
  | nil => exact ⟨acc, rfl, by simpa using h⟩
  | cons row rest ih =>
    obtain ⟨o, ho, hacc⟩ := ih (seen ++ [row]) _ (accumulated_step m acc seen row h)
    refine ⟨o, ?_, by simpa using hacc⟩
    rw [formatLoop, formatStep_known]
    exact ho

theorem formatData_known (m : Measure) (rows : List Row) :
    ∃ o, formatData rows m.name = Except.ok o ∧ Accumulated m o rows := by
  have h0 : Accumulated m [] [] := ⟨by simp [Obj.keys], fun s => by simp [Obj.get?, rowsOf]⟩
  simpa [formatData] using formatLoop_known m rows [] [] h0

theorem rowsOf_ne_nil_iff (rows : List Row) (s : Int) :
    rowsOf rows s ≠ [] ↔ ∃ r ∈ rows, r.sonde = s := by
  unfold rowsOf
  rw [Ne, List.filter_eq_nil_iff]
  simp

theorem accumulated_get (m : Measure) (o : Obj Entry) (rows : List Row)
    (h : Accumulated m o rows) (s : Int) (e : Entry) (he : Obj.get? o s = some e) :
    e = seriesEntry m (rowsOf rows s) := by
  have := h.2 s
  rw [he] at this
  by_cases hempty : rowsOf rows s = []
  · simp [hempty] at this
  · simp only [hempty, if_false, Option.some.injEq] at this
    exact this

theorem accumulated_keys (m : Measure) (o : Obj Entry) (rows : List Row)
    (h : Accumulated m o rows) (s : Int) :
    s ∈ Obj.keys o ↔ ∃ r ∈ rows, r.sonde = s := by
  rw [Obj.mem_keys_iff, h.2 s, ← rowsOf_ne_nil_iff]
  by_cases hempty : rowsOf rows s = [] <;> simp [hempty]

theorem zip_map_same {α β γ : Type} (f : α → β) (g : α → γ) (l : List α) :
    List.zip (l.map f) (l.map g) = l.map fun x => (f x, g x) := by
  induction l with
  | nil => rfl
  | cons a t ih => simp [ih]

/-! ## Claims on `formatData` -/

/-- C6: for every list of rows and every known measurement name `m`,
`formatData(rows, m)` returns a mapping whose keys are exactly the sensor
identifiers occurring in the rows (each once) and whose entry for a sensor has
as `dates` the timestamps of that sensor's rows in input order, as `m`
sequence the `m` values of the same rows in input order, and every other
measurement sequence empty; on the three example rows with `m = decibels` it
gives sensor 1 the dates `[t1, t2]` with decibels `[42, 55]` and sensor 2 the
dates `[t1]` with decibels `[30]`. -/
theorem formatData_series (rows : List Row) (m : Measure) (t1 t2 : Val) :
    (∃ o, formatData rows m.name = Except.ok o
        ∧ (Obj.keys o).Nodup
        ∧ (∀ s : Int, s ∈ Obj.keys o ↔ ∃ r ∈ rows, r.sonde = s)
        ∧ (∀ (s : Int) (e : Entry), Obj.get? o s = some e →
            e.dates = (rowsOf rows s).map (fun r => r.timestamp)
              ∧ e.seq m = (rowsOf rows s).map (fun r => r.measure m)
              ∧ ∀ m2 : Measure, m2 ≠ m → e.seq m2 = []))
      ∧ formatData [decibelRow 1 t1 42, decibelRow 1 t2 55, decibelRow 2 t1 30] "decibels"
        = Except.ok
            [(1, { emptyEntry with dates := [t1, t2], decibels := [Val.num 42, Val.num 55] }),
             (2, { emptyEntry with dates := [t1], decibels := [Val.num 30] })] := by
  constructor
  · obtain ⟨o, ho, hacc⟩ := formatData_known m rows
    refine ⟨o, ho, hacc.1, accumulated_keys m o rows hacc, ?_⟩
    intro s e he
    rw [accumulated_get m o rows hacc s e he]
    exact ⟨seriesEntry_dates m _, seriesEntry_seq m _, fun m2 h => seriesEntry_other m m2 _ h⟩
  · rfl

/-- C10: for every list of rows ordered by ascending timestamp and every known
measurement name `m`, `formatData(rows, m)` has an entry for every sensor that
occurs in the rows, and each entry holds two sequences of the same length
whose positions pair the timestamp and the `m` value of one input row, taken
from the sensor's rows in input order, and `dates` is in ascending order. -/
theorem formatData_parallel (rows : List Row) (m : Measure)
    (hsorted : rows.Pairwise fun a b => Val.le a.timestamp b.timestamp) :
    ∃ o, formatData rows m.name = Except.ok o
      ∧ (∀ s : Int, (∃ r ∈ rows, r.sonde = s) → ∃ e, Obj.get? o s = some e)
      ∧ ∀ (s : Int) (e : Entry), Obj.get? o s = some e →
          e.dates.length = (e.seq m).length
            ∧ List.zip e.dates (e.seq m)
              = (rowsOf rows s).map (fun r => (r.timestamp, r.measure m))
            ∧ (rowsOf rows s).Sublist rows
            ∧ e.dates.Pairwise Val.le := by
  obtain ⟨o, ho, hacc⟩ := formatData_known m rows
  refine ⟨o, ho, ?_, ?_⟩
  · intro s hs
    have hk : Obj.get? o s ≠ none :=
      (Obj.mem_keys_iff o s).mp ((accumulated_keys m o rows hacc s).mpr hs)
    cases hget : Obj.get? o s with
    | none => exact absurd hget hk
    | some e => exact ⟨e, rfl⟩
  · intro s e he
    rw [accumulated_get m o rows hacc s e he, seriesEntry_dates, seriesEntry_seq]
    have hsub : (rowsOf rows s).Sublist rows := List.filter_sublist rows
    refine ⟨by simp, ?_, hsub, ?_⟩
    · exact zip_map_same _ _ _
    · rw [List.pairwise_map]
      exact hsorted.sublist hsub

theorem formatData_parallel_witness :
    ∃ o, formatData
        [decibelRow 1 (Val.num 10) 42, decibelRow 2 (Val.num 10) 30,
         decibelRow 1 (Val.num 20) 55] Measure.decibels.name = Except.ok o
      ∧ (∀ s : Int, (∃ r ∈ [decibelRow 1 (Val.num 10) 42, decibelRow 2 (Val.num 10) 30,
            decibelRow 1 (Val.num 20) 55], r.sonde = s) → ∃ e, Obj.get? o s = some e)
      ∧ ∀ (s : Int) (e : Entry), Obj.get? o s = some e →
          e.dates.length = (e.seq Measure.decibels).length
            ∧ List.zip e.dates (e.seq Measure.decibels)
              = (rowsOf [decibelRow 1 (Val.num 10) 42, decibelRow 2 (Val.num 10) 30,
                  decibelRow 1 (Val.num 20) 55] s).map
                  (fun r => (r.timestamp, r.measure Measure.decibels))
            ∧ (rowsOf [decibelRow 1 (Val.num 10) 42, decibelRow 2 (Val.num 10) 30,
                  decibelRow 1 (Val.num 20) 55] s).Sublist
                [decibelRow 1 (Val.num 10) 42, decibelRow 2 (Val.num 10) 30,
                  decibelRow 1 (Val.num 20) 55]
            ∧ e.dates.Pairwise Val.le :=
  formatData_parallel _ Measure.decibels (by decide)

end Sonometre
